import Mathlib

/-!
Verification of the natural-language specification of the
`education-salon` data-collection scripts against their code.

The development is a shallow embedding of the two Python source files
`scripts/deepresearch_collector.py` and `scripts/slack_notifier.py`:

* pure computations (placeholder-data synthesis, name normalization,
  summary aggregation, severity derivation) become Lean functions;
* the ambient effects (wall-clock timestamps, the process-stable string
  hash, HTTP transport, filesystem writes) become explicit parameters:
  a timestamp is a `String` argument, the string hash is a function
  argument `h : String → Int`, an HTTP call is a function returning
  `Except Unit _` (where `Except.error` models a raised
  `requests.exceptions.RequestException`), and a file write is a
  function returning `Except Unit Unit` (where `Except.error` models a
  raised `Exception`);
* a Python function that can raise past its boundary is embedded with
  an `Except`/`Option` result; one that cannot is embedded as a total
  function.

Machine integers do not overflow here (Python integers are unbounded),
so `Nat`/`Int` are used directly; Python `%` on a positive modulus is
`Int.emod`.
-/

namespace EducationSalon

/-! ## Data model of `deepresearch_collector.py` -/

/-- The nested `academic_records` mapping of a placeholder school record
(`deepresearch_collector.py` lines 97-101). -/
structure AcademicRecords where
  university_advancement_rate : Nat
  notable_universities : List String
  recent_achievements : String
  deriving Repr, DecidableEq

/-- The nested `entrance_exam_info` mapping (lines 102-107). -/
structure EntranceExamInfo where
  exam_date : String
  subjects : List String
  application_period : String
  capacity : Nat
  deriving Repr, DecidableEq

/-- The nested `open_campus` mapping (lines 108-112). -/
structure OpenCampus where
  dates : List String
  programs : List String
  registration_required : Bool
  deriving Repr, DecidableEq

/-- The nested `contact_info` mapping (lines 118-123). -/
structure ContactInfo where
  address : String
  phone : String
  website : String
  email : String
  deriving Repr, DecidableEq

/-- One school record (`school_data`, lines 91-125): the EntityRecord of
the spec.  `hensachi` is the numeric score; `last_updated` carries the
`datetime.now().isoformat()` timestamp, passed in as a parameter. -/
structure School where
  name : String
  prefecture : String
  type : String
  hensachi : Int
  philosophy : String
  academic_records : AcademicRecords
  entrance_exam_info : EntranceExamInfo
  open_campus : OpenCampus
  official_images : List String
  contact_info : ContactInfo
  last_updated : String
  deriving Repr, DecidableEq

/-- The per-prefecture mapping returned by `_generate_placeholder_data`
(lines 128-134) and, shape-wise, by the API: the CollectionArtifact. -/
structure CollectionData where
  prefecture : String
  total_schools : Nat
  schools : List School
  collection_date : String
  data_source : String
  deriving Repr, DecidableEq

/-- The `params` dict built in `collect_prefecture_data` (lines 140-144).
`prefecture` is optional because `_generate_placeholder_data` reads it
with `params.get('prefecture', '東京都')`. -/
structure SearchParams where
  prefecture : Option String
  school_type : String
  include_details : Bool
  deriving Repr, DecidableEq

/-- The summary mapping written by `generate_summary_report`
(lines 204-213): the SummaryArtifact. -/
structure Summary where
  collection_date : String
  total_prefectures : Nat
  successful_collections : Nat
  failed_collections : Nat
  success_rate : String
  results : List (String × Bool)
  api_status : String
  deriving Repr, DecidableEq

/-! ## The collector's pure functions -/

/-- The static prefecture list `self.prefectures` (lines 45-53): the
Region Enumerator. -/
def prefectures : List String :=
  ["北海道", "青森県", "岩手県", "宮城県", "秋田県", "山形県", "福島県",
   "茨城県", "栃木県", "群馬県", "埼玉県", "千葉県", "東京都", "神奈川県",
   "新潟県", "富山県", "石川県", "福井県", "山梨県", "長野県", "岐阜県",
   "静岡県", "愛知県", "三重県", "滋賀県", "京都府", "大阪府", "兵庫県",
   "奈良県", "和歌山県", "鳥取県", "島根県", "岡山県", "広島県", "山口県",
   "徳島県", "香川県", "愛媛県", "高知県", "福岡県", "佐賀県", "長崎県",
   "熊本県", "大分県", "宮崎県", "鹿児島県", "沖縄県"]

/-- Python `s.replace(c, '')` for a single-character pattern `c` removes
every occurrence of that character, i.e. filters it out of the character
list. -/
def removeChar (c : Char) (l : List Char) : List Char :=
  l.filter (fun d => d != c)

/-- `prefecture.replace('県', '').replace('都', '').replace('府', '')`,
the normalization used both in placeholder school names (line 89) and in
the per-prefecture output filename (line 158). -/
def normalizePrefecture (s : String) : String :=
  String.mk (removeChar '府' (removeChar '都' (removeChar '県' s.data)))

/-- `school_types = ['県立', '私立', '国立']` (line 86). -/
def school_types : List String := ["県立", "私立", "国立"]

/-- The derived school name of line 89: normalized prefecture name,
`school_types[i % 3]`, `chr(65 + i)`, then the literal suffix.
`i % 3 < 3`, so `List.getD` with an unused fallback is exact for the
Python index. -/
def schoolName (prefecture : String) (i : Nat) : String :=
  normalizePrefecture prefecture ++ school_types.getD (i % 3) ""
    ++ String.mk [Char.ofNat (65 + i)] ++ "高等学校"

/-- One placeholder `school_data` record (loop body, lines 88-126),
parameterized by the process string hash `h` and the current timestamp
`now`. -/
def schoolRecord (h : String → Int) (now : String) (prefecture : String)
    (i : Nat) : School :=
  let school_name := schoolName prefecture i
  { name := school_name
    prefecture := prefecture
    type := school_types.getD (i % 3) ""
    hensachi := 50 + ((i : Int) * 5) + Int.emod (h school_name) 20
    philosophy := school_name ++
      "は、生徒一人ひとりの個性を大切にし、確かな学力と豊かな人間性を育む教育を実践しています。"
    academic_records :=
      { university_advancement_rate := 85 + i * 2
        notable_universities := ["東京大学", "早稲田大学", "慶應義塾大学", "明治大学"]
        recent_achievements := "令和" ++ toString (4 + i) ++ "年度大学合格実績: 国公立大学"
          ++ toString (20 + i * 3) ++ "名、私立大学" ++ toString (50 + i * 10) ++ "名" }
    entrance_exam_info :=
      { exam_date := "令和6年" ++ toString (2 + i) ++ "月" ++ toString (10 + i) ++ "日"
        subjects := ["国語", "数学", "英語", "理科", "社会"]
        application_period := "令和5年12月" ++ toString (1 + i) ++ "日～12月"
          ++ toString (15 + i) ++ "日"
        capacity := 200 + i * 40 }
    open_campus :=
      { dates := ["令和5年" ++ toString (7 + i) ++ "月" ++ toString (15 + i * 2) ++ "日",
                  "令和5年" ++ toString (8 + i) ++ "月" ++ toString (20 + i * 3) ++ "日"]
        programs := ["学校説明会", "授業体験", "部活動見学", "個別相談"]
        registration_required := true }
    official_images :=
      ["https://example.com/schools/" ++ prefecture ++ "/" ++ school_name ++ "/main.jpg",
       "https://example.com/schools/" ++ prefecture ++ "/" ++ school_name ++ "/campus.jpg",
       "https://example.com/schools/" ++ prefecture ++ "/" ++ school_name ++ "/facilities.jpg"]
    contact_info :=
      { address := prefecture ++ "○○市○○町1-2-3"
        phone := "0" ++ toString (3 + i) ++ "-" ++ toString (1000 + i * 100)
          ++ "-" ++ toString (2000 + i * 200)
        website := "https://www." ++ (school_name.replace "高等学校" "") ++ ".ed.jp"
        email := "info@" ++ (school_name.replace "高等学校" "") ++ ".ed.jp" }
    last_updated := now }

/-- `_generate_placeholder_data` (lines 81-134): the Placeholder
Synthesizer.  `api_key` is `self.api_key`; it only feeds the
`data_source` tag on line 133. -/
def generate_placeholder_data (h : String → Int) (now : String)
    (api_key : Option String) (params : SearchParams) : CollectionData :=
  let prefecture := params.prefecture.getD "東京都"
  let schools := (List.range 5).map (schoolRecord h now prefecture)
  { prefecture := prefecture
    total_schools := schools.length
    schools := schools
    collection_date := now
    data_source := if api_key.isNone then "placeholder" else "deepresearch_api" }

/-! ## The collector's effectful boundary

`Http` is the behavior of the single `requests.get` plus response
parsing: for an endpoint and params it yields either `Except.error ()`
(a raised `requests.exceptions.RequestException`: timeout, connection
error, and also a JSON-decode failure, which `requests` raises as a
`RequestException` subclass) or `Except.ok (status, body)`, the HTTP
status code with the parsed JSON body. -/

/-- Behavior of the outbound HTTP GET, per endpoint and params. -/
def Http : Type := String → SearchParams → Except Unit (Nat × CollectionData)

/-- `_make_api_request` (lines 55-79).  Returns the `Optional[Dict]`
result together with the log lines it emits.  `response.raise_for_status()`
raises `HTTPError` exactly when `400 ≤ status < 600`; that and any
transport failure are caught by the `except RequestException` clause,
which logs and returns `None`.  Without an API key the function returns
placeholder data after a warning log. -/
def make_api_request (h : String → Int) (now : String)
    (api_key : Option String) (http : Http) (endpoint : String)
    (params : SearchParams) : Option CollectionData × List String :=
  match api_key with
  | none =>
      (some (generate_placeholder_data h now api_key params),
       ["DeepResearch API key not found. Using placeholder data."])
  | some _ =>
      match http endpoint params with
      | Except.error _ => (none, ["API request failed"])
      | Except.ok (status, body) =>
          if 400 ≤ status ∧ status < 600 then (none, ["API request failed"])
          else (some body, [])

/-- `collect_prefecture_data` (lines 136-153): the Remote Data Fetcher.
It forwards to `_make_api_request` with the fixed endpoint and query
parameters; its own logging is elided. -/
def collect_prefecture_data (h : String → Int) (now : String)
    (api_key : Option String) (http : Http) (prefecture : String) :
    Option CollectionData :=
  (make_api_request h now api_key http "schools/search"
    { prefecture := some prefecture
      school_type := "high_school"
      include_details := true }).1

/-- The output filename of `save_prefecture_data` (line 158): the
normalized prefecture name with a fixed suffix. -/
def prefectureFileName (prefecture : String) : String :=
  normalizePrefecture prefecture ++ "_schools.json"

/-- `save_prefecture_data` (lines 155-169).  `write` is the filesystem
behavior: given the filename it either succeeds or raises; the
`except Exception` clause converts a raise into `False`. -/
def save_prefecture_data (write : String → Except Unit Unit)
    (prefecture : String) (_data : CollectionData) : Bool :=
  match write (prefectureFileName prefecture) with
  | Except.ok _ => true
  | Except.error _ => false

/-! ## The Collection Orchestrator

`collect_all_prefectures` (lines 171-197) iterates the prefecture list;
for the claims about its loop we embed it over arbitrary behaviors of
the fetcher and persister: `fetch p` is what `self.collect_prefecture_data(p)`
does for prefecture `p` (`Except.error ()` models an unexpected raise,
caught by the loop's `except Exception` clause), and `save p d` is what
`self.save_prefecture_data(p, d)` does (again with a possible raise).
The `time.sleep(1)` pacing between iterations has no effect on the
outcome mapping and is elided. -/

/-- The body of one loop iteration of `collect_all_prefectures`
(lines 181-195): the boolean recorded for one prefecture.  A raise from
either call, or an absent fetch result, records `false`. -/
def processPrefecture (fetch : String → Except Unit (Option CollectionData))
    (save : String → CollectionData → Except Unit Bool)
    (prefecture : String) : Bool :=
  match fetch prefecture with
  | Except.error _ => false
  | Except.ok none => false
  | Except.ok (some data) =>
      match save prefecture data with
      | Except.error _ => false
      | Except.ok b => b

/-- `collect_all_prefectures` (lines 171-197): the loop accumulating
`results[prefecture] = ...` in iteration order.  The Python dict is
embedded as the association list in insertion order (the enumerated
prefectures are pairwise distinct, so each key is assigned once). -/
def collect_all_prefectures (prefs : List String)
    (fetch : String → Except Unit (Option CollectionData))
    (save : String → CollectionData → Except Unit Bool) :
    List (String × Bool) :=
  prefs.foldl (fun results p => results ++ [(p, processPrefecture fetch save p)]) []

/-! ## The Summary Writer -/

/-- Rounding of `num / den` to the nearest integer, ties to even: the
rounding Python's `format(x, '.1f')` applies to the exactly-representable
halves that arise here. -/
def roundHalfEven (num den : Nat) : Nat :=
  let q := num / den
  let r := num % den
  if 2 * r < den then q
  else if den < 2 * r then q + 1
  else if q % 2 = 0 then q else q + 1

/-- `f"{(successful/total)*100:.1f}%"` (line 209), idealized over exact
rationals: the percentage `successful/total*100` rendered with exactly
one decimal digit and a percent sign.  (Python computes the quotient in
binary floating point; for the 0..47-sized counts of this program the
rendered digits agree with exact rational rounding.) -/
def formatPercentOneDecimal (successful total : Nat) : String :=
  let tenths := roundHalfEven (successful * 1000) total
  toString (tenths / 10) ++ "." ++ toString (tenths % 10) ++ "%"

/-- `generate_summary_report` (lines 199-224): aggregates the outcome
mapping into the SummaryArtifact.  `successful` is
`sum(1 for success in results.values() if success)` and `total` is
`len(results)`; with `total = 0` the expression `successful/total`
raises `ZeroDivisionError`, embedded as `none` (no artifact produced).
The filesystem write and the final log lines are elided. -/
def generate_summary_report (now : String) (api_key : Option String)
    (results : List (String × Bool)) : Option Summary :=
  if results.length = 0 then none
  else some
    { collection_date := now
      total_prefectures := results.length
      successful_collections := results.countP (fun r => r.2)
      failed_collections := results.length - results.countP (fun r => r.2)
      success_rate :=
        formatPercentOneDecimal (results.countP (fun r => r.2)) results.length
      results := results
      api_status := if api_key.isSome then "connected" else "placeholder_mode" }

/-! ## Data model of `slack_notifier.py` -/

/-- The environment-derived configuration read in `SlackNotifier.__init__`
(lines 34-38): webhook URL (optional), channel, bot name and icon (the
latter three have defaults, already resolved here). -/
structure SlackConfig where
  webhook_url : Option String
  channel : String
  bot_name : String
  bot_icon : String
  deriving Repr, DecidableEq

/-- The JSON payload POSTed to the webhook (lines 50-61): channel and
bot metadata plus one attachment carrying color, text and timestamp. -/
structure SlackPayload where
  channel : String
  username : String
  icon_emoji : String
  color : String
  text : String
  ts : String
  deriving Repr, DecidableEq

/-- What one call of `_send_slack_message` does, observably: the boolean
it returns, the log lines it emits, and the payloads it actually POSTed
to the network (in order). -/
structure SendOutcome where
  ok : Bool
  log : List String
  posts : List SlackPayload
  deriving Repr, DecidableEq

/-- Behavior of the outbound webhook POST: `Except.error ()` models a
raised `requests.exceptions.RequestException` (transport failure or
non-2xx status via `raise_for_status`). -/
def Post : Type := SlackPayload → Except Unit Unit

/-! ## The Notification Dispatcher and Formatter -/

/-- `_send_slack_message` (lines 43-75): the Notification Dispatcher.
With no webhook configured it logs the message and returns `True`
without touching the network; with one configured it issues exactly one
POST, catches any `RequestException`, logs, and returns `False` on
failure.  It never retries and never raises to the caller (embedded as
a total function). -/
def send_slack_message (cfg : SlackConfig) (post : Post) (now : String)
    (message : String) (color : String) : SendOutcome :=
  match cfg.webhook_url with
  | none =>
      { ok := true
        log := ["[SLACK NOTIFICATION] " ++ message]
        posts := [] }
  | some _ =>
      let payload : SlackPayload :=
        { channel := cfg.channel
          username := cfg.bot_name
          icon_emoji := cfg.bot_icon
          color := color
          text := message
          ts := now }
      match post payload with
      | Except.ok _ =>
          { ok := true
            log := ["Slack notification sent successfully"]
            posts := [payload] }
      | Except.error _ =>
          { ok := false
            log := ["Failed to send Slack notification"]
            posts := [payload] }

/-- The severity derivation of `notify_deepresearch_completion`
(line 100): `"success" if failed == 0 else "warning" if failed <
total_prefectures / 2 else "error"`.  Python `/` is exact true division
into floating point; for the integer counts involved the comparison
`failed < total / 2` is exactly `2 * failed < total`, which is how it is
embedded. -/
def deepresearchStatus (failed total_prefectures : Nat) : String :=
  if failed = 0 then "success"
  else if 2 * failed < total_prefectures then "warning"
  else "error"

/-- The color derivation of line 101: `"good" if status == "success"
else "warning" if status == "warning" else "danger"`. -/
def deepresearchColor (status : String) : String :=
  if status = "success" then "good"
  else if status = "warning" then "warning"
  else "danger"

/-- The message template of `notify_deepresearch_completion`
(lines 103-115), over the loaded summary fields. -/
def deepresearchMessage (status : String) (r : Summary) : String :=
  "[Devin Update] Task: DeepResearch Data Collection | Status: " ++ status
    ++ " | Details:\n\n🏫 **School Data Collection Completed**\n• **Total Prefectures**: "
    ++ toString r.total_prefectures
    ++ "\n• **Successful**: " ++ toString r.successful_collections
    ++ "\n• **Failed**: " ++ toString r.failed_collections
    ++ "\n• **Success Rate**: " ++ r.success_rate
    ++ "\n• **Collection Time**: " ++ r.collection_date
    ++ "\n• **Data Source**: " ++ r.api_status
    ++ "\n\n📊 **Summary**: Collected school data for all Japanese prefectures including 偏差値, 学是, 進学実績, 入試情報, オープンキャンパス情報, and 公式画像URL.\n\n📁 Data saved to: `db/schools/` directory"

/-- `notify_deepresearch_completion` (lines 93-117): derives severity
and color from the loaded summary and dispatches the formatted message.
(The Python reads the summary dict with `.get` defaults; the summary the
pipeline feeds it always carries every key, so the fields are taken
directly from `Summary`.) -/
def notify_deepresearch_completion (cfg : SlackConfig) (post : Post)
    (now : String) (r : Summary) : SendOutcome :=
  let status := deepresearchStatus r.failed_collections r.total_prefectures
  let color := deepresearchColor status
  send_slack_message cfg post now (deepresearchMessage status r) color

/-! ## Shared helper lemmas -/

/-- A concrete school record, used as the unused `List.getD` fallback in
closed instances. -/
def defaultSchool : School := schoolRecord (fun _ => 0) "" "" 0

/-- The search params `collect_prefecture_data` builds for a prefecture. -/
def searchParamsFor (prefecture : String) : SearchParams :=
  { prefecture := some prefecture
    school_type := "high_school"
    include_details := true }

/-- The summary of a one-Region, all-success run: the concrete
SummaryArtifact used in closed instances. -/
def summarySample : Summary :=
  { collection_date := "2024-01-01T00:00:00"
    total_prefectures := 1
    successful_collections := 1
    failed_collections := 0
    success_rate := "100.0%"
    results := [("北海道", true)]
    api_status := "placeholder_mode" }

theorem placeholder_schools_getD (h : String → Int) (now : String)
    (api_key : Option String) (R : String) (i : Nat) (d : School) (hi : i < 5) :
    (generate_placeholder_data h now api_key (searchParamsFor R)).schools.getD i d
      = schoolRecord h now R i := by
  interval_cases i <;> rfl

theorem collect_all_eq_map (prefs : List String)
    (fetch : String → Except Unit (Option CollectionData))
    (save : String → CollectionData → Except Unit Bool) :
    collect_all_prefectures prefs fetch save
      = prefs.map (fun p => (p, processPrefecture fetch save p)) := by
  have key : ∀ (l : List String) (acc : List (String × Bool)),
      l.foldl (fun results p => results ++ [(p, processPrefecture fetch save p)]) acc
        = acc ++ l.map (fun p => (p, processPrefecture fetch save p)) := by
    intro l
    induction l with
    | nil => intro acc; simp
    | cons x xs ih => intro acc; simp [ih]
  simpa using key prefs []

theorem map_fst_pair {α β : Type} (g : α → β) (l : List α) :
    (l.map (fun a => (a, g a))).map Prod.fst = l := by
  induction l with
  | nil => rfl
  | cons x xs ih => simp [ih]

/-! ## The claims -/

/-- C1 (counterexample): with an empty outcome mapping the Summary
Writer does not produce a SummaryArtifact: `successful/total` divides by
zero (`len(results) = 0`), embedded as `none`.  This refutes the claim
that the empty case is treated as a zero success rate. -/
theorem c1_empty_results_counterexample :
    generate_summary_report "2024-01-01T00:00:00" none ([] : List (String × Bool))
      = none := rfl

/-- C1 (amended): for every non-empty outcome mapping the percentage
computation is well-defined and `generate_summary_report` produces a
SummaryArtifact; the empty mapping instead raises `ZeroDivisionError`
(see the counterexample). -/
theorem c1_nonempty_summary_welldefined (now : String) (api_key : Option String)
    (results : List (String × Bool)) (hne : results ≠ []) :
    ∃ s : Summary, generate_summary_report now api_key results = some s := by
  have hl : results.length ≠ 0 := fun h => hne (List.length_eq_zero.mp h)
  unfold generate_summary_report
  rw [if_neg hl]
  exact ⟨_, rfl⟩

/-- C1 (witness): the singleton mapping is non-empty and gets a summary. -/
theorem c1_nonempty_summary_welldefined_witness :
    ∃ s : Summary,
      generate_summary_report "2024-01-01T00:00:00" none [("北海道", true)] = some s :=
  c1_nonempty_summary_welldefined "2024-01-01T00:00:00" none [("北海道", true)]
    (by decide)

/-- C2: for every Region the Placeholder Synthesizer (with no credential
configured) returns a CollectionArtifact with exactly 5 records,
`total_schools = 5`, provenance `placeholder`, and category tags cycling
`県立, 私立, 国立, 県立, 私立` (the `(i mod 3)`-th element of the fixed
3-element type set at index `i`); for Region `東京都` the first record's
name is the normalized `東京` followed by the tag `県立`, the letter `A`
and the fixed suffix. -/
theorem c2_placeholder_shape (h : String → Int) (now R : String) :
    (generate_placeholder_data h now none (searchParamsFor R)).total_schools = 5
  ∧ (generate_placeholder_data h now none (searchParamsFor R)).schools.length = 5
  ∧ (generate_placeholder_data h now none (searchParamsFor R)).data_source = "placeholder"
  ∧ (generate_placeholder_data h now none (searchParamsFor R)).schools.map School.type
      = ["県立", "私立", "国立", "県立", "私立"]
  ∧ ((generate_placeholder_data h now none (searchParamsFor "東京都")).schools.map
        School.name).headD ""
      = normalizePrefecture "東京都" ++ "県立" ++ "A" ++ "高等学校"
  ∧ normalizePrefecture "東京都" = "東京" := by
  refine ⟨rfl, rfl, rfl, rfl, ?_, by decide⟩
  show schoolName "東京都" 0
      = normalizePrefecture "東京都" ++ "県立" ++ "A" ++ "高等学校"
  decide

/-- C3: within one process (one hash function `h`), two invocations of
the Placeholder Synthesizer on the same Region give the same category
tag and the same numeric score at every index, whatever the wall-clock
timestamps of the two calls: tag and score depend only on the Region,
the index and the hash. -/
theorem c3_placeholder_deterministic (h : String → Int) (now now2 R : String)
    (i : Nat) (d d2 : School) (hi : i < 5) :
    ((generate_placeholder_data h now none (searchParamsFor R)).schools.getD i d).type
      = ((generate_placeholder_data h now2 none (searchParamsFor R)).schools.getD i d2).type
  ∧ ((generate_placeholder_data h now none (searchParamsFor R)).schools.getD i d).hensachi
      = ((generate_placeholder_data h now2 none (searchParamsFor R)).schools.getD i d2).hensachi := by
  rw [placeholder_schools_getD h now none R i d hi,
    placeholder_schools_getD h now2 none R i d2 hi]
  exact ⟨rfl, rfl⟩

/-- C3 (witness): a concrete instance at Region `北海道`, index 0, two
distinct timestamps. -/
theorem c3_placeholder_deterministic_witness :
    ((generate_placeholder_data (fun _ => 0) "t1" none (searchParamsFor "北海道")).schools.getD
        0 defaultSchool).type
      = ((generate_placeholder_data (fun _ => 0) "t2" none (searchParamsFor "北海道")).schools.getD
        0 defaultSchool).type
  ∧ ((generate_placeholder_data (fun _ => 0) "t1" none (searchParamsFor "北海道")).schools.getD
        0 defaultSchool).hensachi
      = ((generate_placeholder_data (fun _ => 0) "t2" none (searchParamsFor "北海道")).schools.getD
        0 defaultSchool).hensachi :=
  c3_placeholder_deterministic (fun _ => 0) "t1" "t2" "北海道" 0 defaultSchool
    defaultSchool (by decide)

/-- C4: the score of the synthesized record at index `i < 5` is exactly
`50 + i*5 + (h(name) mod 20)` where `name` is that record's own name,
and hence lies in `[50 + 5*i, 69 + 5*i]`. -/
theorem c4_score_formula (h : String → Int) (now R : String) (i : Nat)
    (d r : School) (hi : i < 5)
    (hr : r = (generate_placeholder_data h now none (searchParamsFor R)).schools.getD i d) :
    r.hensachi = 50 + (i : Int) * 5 + Int.emod (h r.name) 20
  ∧ 50 + 5 * (i : Int) ≤ r.hensachi
  ∧ r.hensachi ≤ 69 + 5 * (i : Int) := by
  subst hr
  rw [placeholder_schools_getD h now none R i d hi]
  refine ⟨rfl, ?_, ?_⟩ <;>
  · have h1 : 0 ≤ Int.emod (h (schoolName R i)) 20 := Int.emod_nonneg _ (by decide)
    have h2 : Int.emod (h (schoolName R i)) 20 < 20 := Int.emod_lt_of_pos _ (by decide)
    have he : (schoolRecord h now R i).hensachi
        = 50 + (i : Int) * 5 + Int.emod (h (schoolName R i)) 20 := rfl
    rw [he]
    omega

/-- C4 (witness): concrete instance at Region `北海道`, index 0, the
constant hash 7. -/
theorem c4_score_formula_witness :
    ((generate_placeholder_data (fun _ => 7) "t" none (searchParamsFor "北海道")).schools.getD
        0 defaultSchool).hensachi
      = 50 + (0 : Int) * 5
        + Int.emod ((fun _ => (7 : Int))
            ((generate_placeholder_data (fun _ => 7) "t" none
              (searchParamsFor "北海道")).schools.getD 0 defaultSchool).name) 20
  ∧ 50 + 5 * ((0 : Nat) : Int)
      ≤ ((generate_placeholder_data (fun _ => 7) "t" none (searchParamsFor "北海道")).schools.getD
          0 defaultSchool).hensachi
  ∧ ((generate_placeholder_data (fun _ => 7) "t" none (searchParamsFor "北海道")).schools.getD
        0 defaultSchool).hensachi ≤ 69 + 5 * ((0 : Nat) : Int) :=
  c4_score_formula (fun _ => 7) "t" "北海道" 0 defaultSchool _ (by decide) rfl

/-- C5: for every enumerated Region list and every behavior of the
fetcher and persister (raises included), the orchestrator's terminal
outcome mapping has exactly one boolean entry per enumerated Region, in
order; a Region whose fetch raises, whose fetch comes back absent, or
whose save raises is recorded as `false` while every other Region is
still processed (the key list of the outcome mapping is the whole
enumeration). -/
theorem c5_orchestrator_outcomes (prefs : List String)
    (fetch : String → Except Unit (Option CollectionData))
    (save : String → CollectionData → Except Unit Bool) (p : String)
    (hp : p ∈ prefs)
    (hf : fetch p = Except.error ()
        ∨ fetch p = Except.ok none
        ∨ ∃ d, fetch p = Except.ok (some d) ∧ save p d = Except.error ()) :
    (collect_all_prefectures prefs fetch save).map Prod.fst = prefs
  ∧ (p, false) ∈ collect_all_prefectures prefs fetch save := by
  constructor
  · rw [collect_all_eq_map]
    exact map_fst_pair _ _
  · rw [collect_all_eq_map]
    have hfalse : processPrefecture fetch save p = false := by
      rcases hf with hf | hf | ⟨d, hf, hs⟩
      · simp [processPrefecture, hf]
      · simp [processPrefecture, hf]
      · simp [processPrefecture, hf, hs]
    exact List.mem_map.mpr ⟨p, hp, by simp [hfalse]⟩

/-- C5 (witness): a two-Region run whose fetch always raises still maps
every Region, and records `false` for the first. -/
theorem c5_orchestrator_outcomes_witness :
    (collect_all_prefectures ["北海道", "東京都"] (fun _ => Except.error ())
        (fun _ _ => Except.ok true)).map Prod.fst = ["北海道", "東京都"]
  ∧ ("北海道", false) ∈ collect_all_prefectures ["北海道", "東京都"]
      (fun _ => Except.error ()) (fun _ _ => Except.ok true) :=
  c5_orchestrator_outcomes ["北海道", "東京都"] (fun _ => Except.error ())
    (fun _ _ => Except.ok true) "北海道" (by simp) (Or.inl rfl)

/-- C6: every SummaryArtifact the Summary Writer produces satisfies
`successful_collections + failed_collections = total_prefectures` (the
Region count of the outcome mapping), and its `success_rate` is the
percentage `successful/total*100` rendered with exactly one decimal
digit followed by a percent sign. -/
theorem c6_summary_invariants (now : String) (api_key : Option String)
    (results : List (String × Bool)) (s : Summary)
    (hs : generate_summary_report now api_key results = some s) :
    s.successful_collections + s.failed_collections = s.total_prefectures
  ∧ s.total_prefectures = results.length
  ∧ s.successful_collections = results.countP (fun r => r.2)
  ∧ ∃ a b : Nat, b < 10
      ∧ s.success_rate = toString a ++ "." ++ toString b ++ "%"
      ∧ 10 * a + b = roundHalfEven (results.countP (fun r => r.2) * 1000) results.length := by
  unfold generate_summary_report at hs
  by_cases h0 : results.length = 0
  · rw [if_pos h0] at hs
    exact absurd hs (by simp)
  · rw [if_neg h0] at hs
    have hcount : results.countP (fun r => r.2) ≤ results.length :=
      List.countP_le_length _
    cases hs
    refine ⟨by simpa using Nat.add_sub_cancel' hcount, rfl, rfl,
      roundHalfEven (results.countP (fun r => r.2) * 1000) results.length / 10,
      roundHalfEven (results.countP (fun r => r.2) * 1000) results.length % 10,
      Nat.mod_lt _ (by norm_num), rfl, by omega⟩

/-- C6 (witness): the one-Region all-success mapping gives a summary
with `1 + 0 = 1` and rate string `100.0%`. -/
theorem c6_summary_invariants_witness :
    summarySample.successful_collections + summarySample.failed_collections
      = summarySample.total_prefectures
  ∧ summarySample.total_prefectures = ([("北海道", true)] : List (String × Bool)).length
  ∧ summarySample.successful_collections
      = ([("北海道", true)] : List (String × Bool)).countP (fun r => r.2)
  ∧ ∃ a b : Nat, b < 10
      ∧ summarySample.success_rate = toString a ++ "." ++ toString b ++ "%"
      ∧ 10 * a + b = roundHalfEven
          (([("北海道", true)] : List (String × Bool)).countP (fun r => r.2) * 1000)
          ([("北海道", true)] : List (String × Bool)).length :=
  c6_summary_invariants "2024-01-01T00:00:00" none [("北海道", true)] summarySample
    (by decide)

/-- C7: the severity of a collection-completion event with failure count
`f` and total count `n` is `success` when `f = 0`, `warning` when
`0 < f < n/2` (exact division), and `error` otherwise, with colors
`good`/`warning`/`danger` respectively; `notify_deepresearch_completion`
dispatches with exactly that derived color. -/
theorem c7_severity_thresholds (f n : Nat) (cfg : SlackConfig) (post : Post)
    (now : String) (r : Summary) :
    deepresearchStatus f n
      = (if f = 0 then "success"
         else if (f : ℚ) < (n : ℚ) / 2 then "warning" else "error")
  ∧ deepresearchColor (deepresearchStatus f n)
      = (if f = 0 then "good"
         else if (f : ℚ) < (n : ℚ) / 2 then "warning" else "danger")
  ∧ notify_deepresearch_completion cfg post now r
      = send_slack_message cfg post now
          (deepresearchMessage
            (deepresearchStatus r.failed_collections r.total_prefectures) r)
          (deepresearchColor
            (deepresearchStatus r.failed_collections r.total_prefectures)) := by
  have hhalf : ((f : ℚ) < (n : ℚ) / 2) ↔ 2 * f < n := by
    rw [lt_div_iff₀ (by norm_num : (0 : ℚ) < 2), mul_comm (f : ℚ) 2]
    exact_mod_cast Iff.rfl
  have hstatus : deepresearchStatus f n
      = (if f = 0 then "success"
         else if (f : ℚ) < (n : ℚ) / 2 then "warning" else "error") := by
    by_cases h0 : f = 0
    · rw [if_pos h0]
      simp [deepresearchStatus, h0]
    · by_cases h2 : 2 * f < n
      · have hq : (f : ℚ) < (n : ℚ) / 2 := hhalf.mpr h2
        rw [if_neg h0, if_pos hq]
        simp [deepresearchStatus, h0, h2]
      · have hq : ¬ (f : ℚ) < (n : ℚ) / 2 := fun hc => h2 (hhalf.mp hc)
        rw [if_neg h0, if_neg hq]
        simp [deepresearchStatus, h0, h2]
  refine ⟨hstatus, ?_, rfl⟩
  rw [hstatus]
  by_cases h0 : f = 0
  · rw [if_pos h0, if_pos h0]
    decide
  · by_cases h2 : 2 * f < n
    · have hq : (f : ℚ) < (n : ℚ) / 2 := hhalf.mpr h2
      rw [if_neg h0, if_pos hq, if_neg h0, if_pos hq]
      decide
    · have hq : ¬ (f : ℚ) < (n : ℚ) / 2 := fun hc => h2 (hhalf.mp hc)
      rw [if_neg h0, if_neg hq, if_neg h0, if_neg hq]
      decide

/-- C8: the Notification Dispatcher with no webhook configured returns
success, logs the message and attempts no POST; with a webhook
configured and a failing transport, the single POST's failure is caught
and the Dispatcher returns failure; in every case at most one POST is
attempted (no retry) and the function is total (never raises to the
caller). -/
theorem c8_dispatcher_behavior (cfg : SlackConfig) (post : Post)
    (now message color : String) :
    (cfg.webhook_url = none →
      send_slack_message cfg post now message color
        = { ok := true, log := ["[SLACK NOTIFICATION] " ++ message], posts := [] })
  ∧ (∀ url, cfg.webhook_url = some url → (∀ q, post q = Except.error ()) →
      (send_slack_message cfg post now message color).ok = false
        ∧ (send_slack_message cfg post now message color).posts.length = 1)
  ∧ (send_slack_message cfg post now message color).posts.length ≤ 1 := by
  refine ⟨fun hn => by simp [send_slack_message, hn], ?_, ?_⟩
  · intro url hu hfail
    simp [send_slack_message, hu, hfail]
  · cases hu : cfg.webhook_url with
    | none => simp [send_slack_message, hu]
    | some url =>
        simp only [send_slack_message, hu]
        cases post
            { channel := cfg.channel
              username := cfg.bot_name
              icon_emoji := cfg.bot_icon
              color := color
              text := message
              ts := now } <;>
          simp

/-- C9: with a credential configured, the Remote Data Fetcher converts
every transport-level failure and every non-success (4xx/5xx) HTTP
status into an absent result with a logged failure, passes a success
body through verbatim, and the orchestrator records a per-region
`false` (rather than aborting) when the fetch comes back absent; the
embedding is a total function (the fetcher never raises past its
boundary). -/
theorem c9_fetcher_error_contract (h : String → Int) (now apiKey : String)
    (http : Http) (endpoint : String) (ps : SearchParams) :
    (http endpoint ps = Except.error () →
      make_api_request h now (some apiKey) http endpoint ps
        = (none, ["API request failed"]))
  ∧ (∀ status body, http endpoint ps = Except.ok (status, body) →
      400 ≤ status → status < 600 →
      make_api_request h now (some apiKey) http endpoint ps
        = (none, ["API request failed"]))
  ∧ (∀ status body, http endpoint ps = Except.ok (status, body) →
      ¬ (400 ≤ status ∧ status < 600) →
      make_api_request h now (some apiKey) http endpoint ps = (some body, []))
  ∧ (∀ (save : String → CollectionData → Except Unit Bool) (p : String),
      collect_prefecture_data h now (some apiKey) http p = none →
      processPrefecture
        (fun q => Except.ok (collect_prefecture_data h now (some apiKey) http q))
        save p = false) := by
  refine ⟨?_, ?_, ?_, ?_⟩
  · intro he
    simp [make_api_request, he]
  · intro status body hok h4 h6
    simp [make_api_request, hok, h4, h6]
  · intro status body hok hrange
    simp [make_api_request, hok, hrange]
  · intro save p hnone
    simp [processPrefecture, hnone]

/-- C9 (witness): a transport error at a concrete call yields an absent
result. -/
theorem c9_fetcher_error_contract_witness :
    make_api_request (fun _ => 0) "t" (some "k")
        (fun _ _ => Except.error ()) "schools/search" (searchParamsFor "北海道")
      = (none, ["API request failed"]) :=
  (c9_fetcher_error_contract (fun _ => 0) "t" "k" (fun _ _ => Except.error ())
    "schools/search" (searchParamsFor "北海道")).1 rfl

/-- C10: the Region-name normalization shared by the synthesized entity
names and the per-region artifact filename removes every occurrence of
the characters 県, 都 and 府, not only a trailing suffix: 京都府
normalizes to 京 (interior 都 and suffix 府 both removed), 北海道 is
unchanged, the filename for 京都府 is built from the normalized name,
and in general no removed character survives normalization while every
other character does. -/
theorem c10_normalization_removes_all (s2 : String) :
    normalizePrefecture "京都府" = "京"
  ∧ normalizePrefecture "北海道" = "北海道"
  ∧ prefectureFileName "京都府" = "京_schools.json"
  ∧ (∀ i : Nat, schoolName "京都府" i
      = "京" ++ school_types.getD (i % 3) "" ++ String.mk [Char.ofNat (65 + i)] ++ "高等学校")
  ∧ (∀ c ∈ (normalizePrefecture s2).data, c ≠ '県' ∧ c ≠ '都' ∧ c ≠ '府')
  ∧ (∀ c ∈ s2.data, c ≠ '県' → c ≠ '都' → c ≠ '府' →
      c ∈ (normalizePrefecture s2).data) := by
  refine ⟨by decide, by decide, by decide, ?_, ?_, ?_⟩
  · intro i
    show normalizePrefecture "京都府" ++ _ ++ _ ++ _ = _
    rw [show normalizePrefecture "京都府" = "京" by decide]
  · intro c hc
    simp only [normalizePrefecture, removeChar, String.data] at hc
    simp only [List.mem_filter, bne_iff_ne, decide_eq_true_eq] at hc
    exact ⟨hc.1.1.2, hc.1.2, hc.2⟩
  · intro c hc h1 h2 h3
    simp only [normalizePrefecture, removeChar, String.data]
    simp only [List.mem_filter, bne_iff_ne, decide_eq_true_eq]
    exact ⟨⟨⟨hc, h1⟩, h2⟩, h3⟩
